import Mathlib

/-!
Verification of the RESCUE-MESH SOS backend core
(`mesh-sos-backend/app/routes/sos.py` and `mesh-sos-backend/app/models.py`)
against its natural-language specification.

The embedding is shallow:
* `datetime` values become `Int` (seconds); `timedelta(hours=h)` is `h * 3600`.
* UUIDs become `Nat`.
* Python floats (latitude/longitude/accuracy) become `Rat`; the range checks
  involved compare against exactly representable bounds, so the order
  structure is faithful.
* The SQLAlchemy session is a `List SosPacketDB`; every mutating route
  returns the new store next to its HTTP result.
-/

namespace RescueMesh

/-- `EmergencyType` enum from `app/models.py`. -/
inductive EmergencyType where
  | MEDICAL
  | FIRE
  | FLOOD
  | EARTHQUAKE
  | GENERAL
deriving DecidableEq, Repr

/-- `DeliveryStatus` enum from `app/models.py`. -/
inductive DeliveryStatus where
  | PENDING
  | RELAYED
  | DELIVERED
  | RESPONDED
deriving DecidableEq, Repr

/-- A row of the `sos_packets` table (`SosPacketDB` in `app/models.py`). -/
structure SosPacketDB where
  sos_id : Nat
  device_id : String
  timestamp : Int
  latitude : Rat
  longitude : Rat
  accuracy : Option Rat
  emergency_type : EmergencyType
  optional_message : Option String
  battery_percentage : Option Int
  hop_count : Int
  ttl : Int
  signature : Option String
  status : DeliveryStatus
  received_at : Int
  responded_at : Option Int
  responder_id : Option String
deriving DecidableEq, Repr

/-- Validated upload payload (`SosPacketCreate` in `app/models.py`,
after pydantic validation has succeeded). -/
structure SosPacketCreate where
  sos_id : Nat
  device_id : String
  timestamp : Int
  latitude : Rat
  longitude : Rat
  accuracy : Option Rat
  emergency_type : EmergencyType
  optional_message : Option String
  battery_percentage : Option Int
  hop_count : Int
  ttl : Int
  signature : Option String
deriving DecidableEq, Repr

/-- Raw upload payload before pydantic validation: the emergency type is the
string from the JSON body, everything else carries the declared base type. -/
structure SosPacketRaw where
  sos_id : Nat
  device_id : String
  timestamp : Int
  latitude : Rat
  longitude : Rat
  accuracy : Option Rat
  emergency_type : String
  optional_message : Option String
  battery_percentage : Option Int
  hop_count : Int
  ttl : Int
  signature : Option String
deriving DecidableEq, Repr

/-- Body of `UploadResponse` in `app/models.py`. -/
structure UploadResponse where
  success : Bool
  sos_id : Nat
  message : String
deriving DecidableEq, Repr

/-- Body of `SosPacketResponse` in `app/models.py` (the fields serialized
back to clients; `responder_id` and relay tracking are not exposed). -/
structure SosPacketResponse where
  sos_id : Nat
  device_id : String
  timestamp : Int
  latitude : Rat
  longitude : Rat
  accuracy : Option Rat
  emergency_type : EmergencyType
  optional_message : Option String
  battery_percentage : Option Int
  hop_count : Int
  ttl : Int
  status : DeliveryStatus
  received_at : Int
  responded_at : Option Int
deriving DecidableEq, Repr

/-- Projection used by `SosPacketResponse.model_validate`. -/
def SosPacketResponse.ofDB (p : SosPacketDB) : SosPacketResponse :=
  { sos_id := p.sos_id
    device_id := p.device_id
    timestamp := p.timestamp
    latitude := p.latitude
    longitude := p.longitude
    accuracy := p.accuracy
    emergency_type := p.emergency_type
    optional_message := p.optional_message
    battery_percentage := p.battery_percentage
    hop_count := p.hop_count
    ttl := p.ttl
    status := p.status
    received_at := p.received_at
    responded_at := p.responded_at }

/-- Errors surfaced over HTTP: pydantic/FastAPI validation failures (422,
listing the offending fields) and explicit `HTTPException`s (400/404). -/
inductive ApiError where
  | validation (fields : List String)
  | http (statusCode : Nat) (detail : String)
deriving DecidableEq, Repr

/-- Python's `str.upper()` on the character data (faithful for the ASCII
enum names compared against). -/
def upperString (s : String) : String :=
  ⟨s.data.map Char.toUpper⟩

/-- The `validate_emergency_type` validator (`app/models.py`) uppercases the
string; pydantic then matches it against the `EmergencyType` enum, failing
validation on anything outside the enumeration. -/
def parseEmergencyType (s : String) : Option EmergencyType :=
  match upperString s with
  | "MEDICAL" => some .MEDICAL
  | "FIRE" => some .FIRE
  | "FLOOD" => some .FLOOD
  | "EARTHQUAKE" => some .EARTHQUAKE
  | "GENERAL" => some .GENERAL
  | _ => none

/-- Names of the fields whose pydantic constraints (`app/models.py` lines
81-102) the raw payload violates. -/
def validationErrs (raw : SosPacketRaw) : List String :=
  (if raw.device_id.length < 1 ∨ raw.device_id.length > 128
    then ["device_id"] else [])
  ++ (if raw.latitude < -90 ∨ raw.latitude > 90 then ["latitude"] else [])
  ++ (if raw.longitude < -180 ∨ raw.longitude > 180 then ["longitude"] else [])
  ++ (match raw.optional_message with
      | some m => if m.length > 500 then ["optional_message"] else []
      | none => [])
  ++ (match raw.battery_percentage with
      | some b => if b < 0 ∨ b > 100 then ["battery_percentage"] else []
      | none => [])
  ++ (if raw.hop_count < 0 ∨ raw.hop_count > 100 then ["hop_count"] else [])
  ++ (if raw.ttl < 0 ∨ raw.ttl > 100 then ["ttl"] else [])
  ++ (match raw.signature with
      | some s => if s.length > 128 then ["signature"] else []
      | none => [])
  ++ (match parseEmergencyType raw.emergency_type with
      | some _ => []
      | none => ["emergency_type"])

/-- Pydantic validation of `SosPacketCreate` (`app/models.py` lines 81-102):
field range constraints, collecting the names of all offending fields. -/
def validatePacket (raw : SosPacketRaw) : Except (List String) SosPacketCreate :=
  match validationErrs raw, parseEmergencyType raw.emergency_type with
  | [], some et =>
      .ok { sos_id := raw.sos_id
            device_id := raw.device_id
            timestamp := raw.timestamp
            latitude := raw.latitude
            longitude := raw.longitude
            accuracy := raw.accuracy
            emergency_type := et
            optional_message := raw.optional_message
            battery_percentage := raw.battery_percentage
            hop_count := raw.hop_count
            ttl := raw.ttl
            signature := raw.signature }
  | errs, _ => .error errs

/-- The store is the `sos_packets` table, in insertion order. -/
abbrev Store := List SosPacketDB

/-- `db.query(SosPacketDB).filter(SosPacketDB.sos_id == i).first()`. -/
def findPacket (db : Store) (i : Nat) : Option SosPacketDB :=
  db.find? (fun p => p.sos_id == i)

/-- `max_age = timedelta(hours=24)` from `upload_sos`. -/
def maxAge : Int := 24 * 3600

/-- The row `upload_sos` builds for a fresh packet (`SosPacketDB(...)` call,
`app/routes/sos.py` lines 62-77). -/
def createdRow (packet : SosPacketCreate) (now : Int) : SosPacketDB :=
  { sos_id := packet.sos_id
    device_id := packet.device_id
    timestamp := packet.timestamp
    latitude := packet.latitude
    longitude := packet.longitude
    accuracy := packet.accuracy
    emergency_type := packet.emergency_type
    optional_message := packet.optional_message
    battery_percentage := packet.battery_percentage
    hop_count := packet.hop_count
    ttl := packet.ttl
    signature := packet.signature
    status := .DELIVERED
    received_at := now
    responded_at := none
    responder_id := none }

/-- `upload_sos` (`app/routes/sos.py` lines 27-89): deduplication lookup
first, then the staleness check, then persist with `status=DELIVERED` and
`received_at=now`. -/
def upload_sos (packet : SosPacketCreate) (now : Int) (db : Store) :
    Except ApiError UploadResponse × Store :=
  match findPacket db packet.sos_id with
  | some _ =>
      (.ok { success := true
             sos_id := packet.sos_id
             message := "SOS packet already exists in database" }, db)
  | none =>
      if now - packet.timestamp > maxAge then
        (.error (.http 400 "SOS packet timestamp too old (>24 hours)"), db)
      else
        (.ok { success := true
               sos_id := packet.sos_id
               message := "SOS packet uploaded successfully" },
         db ++ [createdRow packet now])

/-- The `/upload-sos` route as reached from the HTTP boundary: pydantic
validation (422 on failure) before the handler body runs. -/
def upload_endpoint (raw : SosPacketRaw) (now : Int) (db : Store) :
    Except ApiError UploadResponse × Store :=
  match validatePacket raw with
  | .error errs => (.error (.validation errs), db)
  | .ok packet => upload_sos packet now db

/-- "Newer or equally new": the descending order on client timestamps used
by `ORDER BY timestamp DESC`. -/
def tsGE (a b : SosPacketDB) : Prop := b.timestamp ≤ a.timestamp

instance : DecidableRel tsGE := fun a b =>
  inferInstanceAs (Decidable (b.timestamp ≤ a.timestamp))

instance : IsTotal SosPacketDB tsGE :=
  ⟨fun a b => le_total b.timestamp a.timestamp⟩

instance : IsTrans SosPacketDB tsGE :=
  ⟨fun _ _ _ h1 h2 => le_trans h2 h1⟩

/-- Sort a packet list by client timestamp, newest first
(`query.order_by(SosPacketDB.timestamp.desc())`). -/
def sortByTimestampDesc (l : List SosPacketDB) : List SosPacketDB :=
  List.insertionSort tsGE l

/-- Row predicate of the `/active-sos` query: `status != RESPONDED` and
`received_at >= time_threshold`, plus the optional emergency-type filter. -/
def activeMatch (now : Int) (emergency_type : Option EmergencyType)
    (hours : Int) (p : SosPacketDB) : Bool :=
  let time_threshold := now - hours * 3600
  decide (p.status ≠ DeliveryStatus.RESPONDED) &&
    decide (time_threshold ≤ p.received_at) &&
    (match emergency_type with
     | some et => decide (p.emergency_type = et)
     | none => true)

/-- `get_active_sos` (`app/routes/sos.py` lines 92-131), after FastAPI has
accepted the query parameters: filter on status and time window, optional
type filter, order newest-first by the client timestamp, truncate to
`limit`, and project rows into response bodies. -/
def get_active_sos (db : Store) (now : Int)
    (emergency_type : Option EmergencyType) (hours : Int) (limit : Nat) :
    List SosPacketResponse :=
  let packets := (sortByTimestampDesc
    (db.filter (activeMatch now emergency_type hours))).take limit
  packets.map SosPacketResponse.ofDB

/-- The `/active-sos` route as reached from the HTTP boundary: FastAPI
enforces `hours = Query(24, ge=1, le=168)` and `limit = Query(100, ge=1,
le=500)` by rejecting out-of-range values with a 422 validation error
before the handler body runs. -/
def active_sos_endpoint (db : Store) (now : Int)
    (emergency_type : Option EmergencyType) (hours : Int) (limit : Int) :
    Except ApiError (List SosPacketResponse) :=
  let errs :=
    (if hours < 1 ∨ hours > 168 then ["hours"] else [])
    ++ (if limit < 1 ∨ limit > 500 then ["limit"] else [])
  match errs with
  | [] => .ok (get_active_sos db now emergency_type hours limit.toNat)
  | errs => .error (.validation errs)

/-- `mark_responded` (`app/routes/sos.py` lines 134-171): 404 when the id is
unknown; idempotent success when the packet is already RESPONDED; otherwise
set `status`, `responded_at`, `responder_id` and persist. -/
def mark_responded (sos_id : Nat) (responder_id : String) (now : Int)
    (db : Store) : Except ApiError UploadResponse × Store :=
  match findPacket db sos_id with
  | none =>
      (.error (.http 404 ("SOS packet " ++ toString sos_id ++ " not found")), db)
  | some packet =>
      if packet.status = DeliveryStatus.RESPONDED then
        (.ok { success := true
               sos_id := sos_id
               message := "SOS packet already marked as responded" }, db)
      else
        (.ok { success := true
               sos_id := sos_id
               message := "SOS packet marked as responded" },
         db.map (fun q =>
           if q.sos_id == sos_id then
             { q with status := DeliveryStatus.RESPONDED
                      responded_at := some now
                      responder_id := some responder_id }
           else q))

/-- `get_sos_by_id` (`app/routes/sos.py` lines 174-190): pure lookup, 404
when absent. -/
def get_sos_by_id (sos_id : Nat) (db : Store) :
    Except ApiError SosPacketResponse :=
  match findPacket db sos_id with
  | none => .error (.http 404 ("SOS packet " ++ toString sos_id ++ " not found"))
  | some packet => .ok (SosPacketResponse.ofDB packet)

/-- One API call, for stating whole-history invariants. -/
inductive Op where
  | upload (raw : SosPacketRaw) (now : Int)
  | markResponded (sos_id : Nat) (responder_id : String) (now : Int)
  | listActive (now : Int) (emergency_type : Option EmergencyType)
      (hours : Int) (limit : Int)
  | getById (sos_id : Nat)

/-- Effect of one API call on the store. The two GET routes never call
`db.add`/`db.commit`, so they leave the store untouched. -/
def applyOp (db : Store) : Op → Store
  | .upload raw now => (upload_endpoint raw now db).2
  | .markResponded i r now => (mark_responded i r now db).2
  | .listActive _ _ _ _ => db
  | .getById _ => db

/-- Store produced by a sequence of API calls from the empty store. -/
def runOps (ops : List Op) : Store :=
  ops.foldl applyOp []

/-! ### Helper lemmas -/

/-- Looking up a key in the store extended by one row. -/
lemma findPacket_append (db : Store) (row : SosPacketDB) (i : Nat) :
    findPacket (db ++ [row]) i =
      (findPacket db i).or (if row.sos_id == i then some row else none) := by
  simp only [findPacket, List.find?_append]
  congr 1
  cases h : (row.sos_id == i) <;> simp [List.find?, h]

/-- A key that `find?` misses has zero matching rows. -/
lemma countP_eq_zero_of_findPacket_none {db : Store} {i : Nat}
    (h : findPacket db i = none) :
    db.countP (fun p => p.sos_id == i) = 0 := by
  rw [List.countP_eq_zero]
  exact List.find?_eq_none.mp h

/-! ### Claim theorems -/

/-- Fixture: a concrete validated packet. -/
def samplePacket : SosPacketCreate :=
  { sos_id := 1
    device_id := "d"
    timestamp := 0
    latitude := 0
    longitude := 0
    accuracy := none
    emergency_type := .GENERAL
    optional_message := none
    battery_percentage := none
    hop_count := 0
    ttl := 10
    signature := none }

/-- C1: ingestion is deduplicating and idempotent. A first `upload_sos` of a
valid packet whose id is absent persists the row and reports creation; any
second call with the same id returns a success response with the
"already exists" message, leaves the store unchanged, and the store then
holds exactly one row for that id. -/
theorem upload_dedup_idempotent (packet packet2 : SosPacketCreate)
    (now now2 : Int) (db : Store)
    (habsent : findPacket db packet.sos_id = none)
    (hfresh : now - packet.timestamp ≤ maxAge)
    (hid : packet2.sos_id = packet.sos_id) :
    upload_sos packet now db =
      (.ok { success := true, sos_id := packet.sos_id,
             message := "SOS packet uploaded successfully" },
       db ++ [createdRow packet now]) ∧
    upload_sos packet2 now2 (db ++ [createdRow packet now]) =
      (.ok { success := true, sos_id := packet2.sos_id,
             message := "SOS packet already exists in database" },
       db ++ [createdRow packet now]) ∧
    (db ++ [createdRow packet now]).countP
      (fun p => p.sos_id == packet.sos_id) = 1 := by
  refine ⟨?_, ?_, ?_⟩
  · rw [upload_sos, habsent]
    simp [not_lt.mpr hfresh]
  · rw [upload_sos, findPacket_append]
    rw [hid, habsent]
    simp [createdRow]
  · rw [List.countP_append, countP_eq_zero_of_findPacket_none habsent]
    simp [createdRow]

/-- C1 witness: instantiation at a concrete packet and the empty store. -/
theorem upload_dedup_idempotent_witness :
    upload_sos samplePacket 5 [] =
      (.ok { success := true, sos_id := samplePacket.sos_id,
             message := "SOS packet uploaded successfully" },
       ([createdRow samplePacket 5] : Store)) ∧
    upload_sos samplePacket 7 (([createdRow samplePacket 5] : Store)) =
      (.ok { success := true, sos_id := samplePacket.sos_id,
             message := "SOS packet already exists in database" },
       ([createdRow samplePacket 5] : Store)) ∧
    (([createdRow samplePacket 5] : Store)).countP
      (fun p => p.sos_id == samplePacket.sos_id) = 1 :=
  upload_dedup_idempotent samplePacket samplePacket 5 7 [] rfl (by decide) rfl

/-- C4: a well-formed packet whose id is absent and whose client timestamp
is more than 24 hours old is rejected with HTTP 400 "timestamp too old",
leaving the store unchanged. -/
theorem upload_stale_rejected (packet : SosPacketCreate) (now : Int)
    (db : Store)
    (habsent : findPacket db packet.sos_id = none)
    (hstale : now - packet.timestamp > maxAge) :
    upload_sos packet now db =
      (.error (.http 400 "SOS packet timestamp too old (>24 hours)"), db) := by
  rw [upload_sos, habsent]
  simp [hstale]

/-- C4 witness: a packet reported at time 0 uploaded at time `maxAge + 1`. -/
theorem upload_stale_rejected_witness :
    upload_sos samplePacket (maxAge + 1) [] =
      (.error (.http 400 "SOS packet timestamp too old (>24 hours)"), []) :=
  upload_stale_rejected samplePacket (maxAge + 1) [] rfl (by decide)

/-- C10: deduplication precedes the freshness check — a duplicate of a
packet whose timestamp is older than the staleness limit still returns the
"already exists" success and never the stale-timestamp error. -/
theorem upload_duplicate_skips_staleness (packet : SosPacketCreate)
    (now : Int) (db : Store) (q : SosPacketDB)
    (hdup : findPacket db packet.sos_id = some q)
    (_hstale : now - packet.timestamp > maxAge) :
    upload_sos packet now db =
      (.ok { success := true, sos_id := packet.sos_id,
             message := "SOS packet already exists in database" }, db) := by
  rw [upload_sos, hdup]

/-- C10 witness: a stale duplicate of an already-stored packet succeeds. -/
theorem upload_duplicate_skips_staleness_witness :
    upload_sos samplePacket (maxAge + 1) [createdRow samplePacket 5] =
      (.ok { success := true, sos_id := samplePacket.sos_id,
             message := "SOS packet already exists in database" },
       [createdRow samplePacket 5]) :=
  upload_duplicate_skips_staleness samplePacket (maxAge + 1)
    [createdRow samplePacket 5] (createdRow samplePacket 5) rfl (by decide)

/-- C3: `mark_responded` is idempotent at the terminal state. If the packet
is already RESPONDED, it returns a success and leaves the store (hence
`responded_at` and `responder_id`) entirely unchanged; otherwise it reports
success and persists the packet updated with `status=RESPONDED`,
`responded_at=now`, `responder_id`=caller, while every other packet is kept. -/
theorem mark_responded_transitions (i : Nat) (r : String) (now : Int)
    (db : Store) (q : SosPacketDB)
    (hfind : findPacket db i = some q) :
    (q.status = .RESPONDED →
      mark_responded i r now db =
        (.ok { success := true, sos_id := i,
               message := "SOS packet already marked as responded" }, db)) ∧
    (q.status ≠ .RESPONDED →
      (mark_responded i r now db).1 =
        .ok { success := true, sos_id := i,
              message := "SOS packet marked as responded" } ∧
      ({ q with status := .RESPONDED, responded_at := some now,
                responder_id := some r } : SosPacketDB)
        ∈ (mark_responded i r now db).2 ∧
      ∀ p ∈ db, p.sos_id ≠ i → p ∈ (mark_responded i r now db).2) := by
  have hfind' : List.find? (fun p => p.sos_id == i) db = some q := hfind
  have hq_mem : q ∈ db := List.mem_of_find?_eq_some hfind'
  have hqid : (q.sos_id == i) = true := by
    have h := List.find?_some hfind'
    simpa using h
  constructor
  · intro hq
    rw [mark_responded, hfind]
    simp [hq]
  · intro hq
    rw [mark_responded, hfind]
    dsimp only
    rw [if_neg hq]
    dsimp only
    refine ⟨rfl, ?_, ?_⟩
    · have h := List.mem_map_of_mem
        (f := fun p : SosPacketDB =>
          if p.sos_id == i then
            { p with status := DeliveryStatus.RESPONDED
                     responded_at := some now
                     responder_id := some r }
          else p) hq_mem
      simpa [hqid] using h
    · intro p hp hpne
      have h := List.mem_map_of_mem
        (f := fun p : SosPacketDB =>
          if p.sos_id == i then
            { p with status := DeliveryStatus.RESPONDED
                     responded_at := some now
                     responder_id := some r }
          else p) hp
      have hpid : (p.sos_id == i) = false := by simpa using hpne
      simpa [hpid] using h

/-- C3 witness: marking a freshly delivered packet as responded. -/
theorem mark_responded_transitions_witness :
    (mark_responded 1 "r" 9 [createdRow samplePacket 5]).1 =
      .ok { success := true, sos_id := 1,
            message := "SOS packet marked as responded" } :=
  ((mark_responded_transitions 1 "r" 9 [createdRow samplePacket 5]
    (createdRow samplePacket 5) rfl).2 (by decide)).1

/-- C7: unknown ids fail cleanly with 404 and do not change the store;
`get_sos_by_id` on a present id returns that packet and, being a pure read,
does not change the store either. -/
theorem unknown_id_handling (i : Nat) (r : String) (now : Int) (db : Store) :
    (findPacket db i = none →
      mark_responded i r now db =
        (.error (.http 404 ("SOS packet " ++ toString i ++ " not found")), db) ∧
      get_sos_by_id i db =
        .error (.http 404 ("SOS packet " ++ toString i ++ " not found")) ∧
      applyOp db (.getById i) = db) ∧
    (∀ q, findPacket db i = some q →
      get_sos_by_id i db = .ok (SosPacketResponse.ofDB q) ∧
      applyOp db (.getById i) = db) := by
  constructor
  · intro h
    refine ⟨?_, ?_, rfl⟩
    · rw [mark_responded, h]
    · rw [get_sos_by_id, h]
  · intro q h
    exact ⟨by rw [get_sos_by_id, h], rfl⟩

/-- C7 witness: id 2 is absent from a one-row store holding id 1. -/
theorem unknown_id_handling_witness :
    mark_responded 2 "r" 0 [createdRow samplePacket 5] =
      (.error (.http 404 ("SOS packet " ++ toString 2 ++ " not found")),
       [createdRow samplePacket 5]) ∧
    get_sos_by_id 2 [createdRow samplePacket 5] =
      .error (.http 404 ("SOS packet " ++ toString 2 ++ " not found")) ∧
    applyOp [createdRow samplePacket 5] (.getById 2) =
      [createdRow samplePacket 5] :=
  (unknown_id_handling 2 "r" 0 [createdRow samplePacket 5]).1 rfl

/-- C9: out-of-range query parameters on `/active-sos` are rejected with a
non-empty validation error (HTTP 422) — never answered from clamped
values. -/
theorem active_params_rejected (db : Store) (now : Int)
    (et : Option EmergencyType) (hours limit : Int)
    (h : hours < 1 ∨ 168 < hours ∨ limit < 1 ∨ 500 < limit) :
    ∃ errs, errs ≠ [] ∧
      active_sos_endpoint db now et hours limit =
        .error (.validation errs) := by
  refine ⟨(if hours < 1 ∨ hours > 168 then ["hours"] else [])
    ++ (if limit < 1 ∨ limit > 500 then ["limit"] else []), ?_, ?_⟩
  · rcases h with h | h | h | h
    · simp [show hours < 1 ∨ hours > 168 from Or.inl h]
    · simp [show hours < 1 ∨ hours > 168 from Or.inr h]
    · simp [show limit < 1 ∨ limit > 500 from Or.inl h]
    · simp [show limit < 1 ∨ limit > 500 from Or.inr h]
  · rw [active_sos_endpoint]
    rcases h with h | h | h | h
    · simp [show hours < 1 ∨ hours > 168 from Or.inl h]
    · simp [show hours < 1 ∨ hours > 168 from Or.inr h]
    · rcases Decidable.em (hours < 1 ∨ hours > 168) with hh | hh
      · simp [hh, show limit < 1 ∨ limit > 500 from Or.inl h]
      · simp [hh, show limit < 1 ∨ limit > 500 from Or.inl h]
    · rcases Decidable.em (hours < 1 ∨ hours > 168) with hh | hh
      · simp [hh, show limit < 1 ∨ limit > 500 from Or.inr h]
      · simp [hh, show limit < 1 ∨ limit > 500 from Or.inr h]

/-- C9 witness: `hours = 0`, `limit = 600` are both rejected. -/
theorem active_params_rejected_witness :
    ∃ errs, errs ≠ [] ∧
      active_sos_endpoint [] 0 none 0 600 = .error (.validation errs) :=
  active_params_rejected [] 0 none 0 600 (Or.inl (by decide))

/-- Unfolding of the row predicate of `/active-sos` into propositional
form. -/
lemma activeMatch_iff (now : Int) (et : Option EmergencyType) (hours : Int)
    (p : SosPacketDB) :
    activeMatch now et hours p = true ↔
      p.status ≠ .RESPONDED ∧ now - hours * 3600 ≤ p.received_at ∧
        ∀ t, et = some t → p.emergency_type = t := by
  cases et <;> simp [activeMatch, and_assoc]

/-- C2: for in-range parameters, `/active-sos` returns only non-RESPONDED
packets of the store received inside the window that pass the optional
type filter, newest-first by client timestamp, at most `limit` of them;
an empty result (not an error) when nothing matches; and all matching
packets whenever they fit inside `limit`. -/
theorem active_sos_spec (db : Store) (now : Int) (et : Option EmergencyType)
    (hours : Int) (limit : Nat)
    (_hh1 : 1 ≤ hours) (_hh2 : hours ≤ 168) (_hl1 : 1 ≤ limit)
    (_hl2 : limit ≤ 500) :
    (∀ resp ∈ get_active_sos db now et hours limit,
       ∃ p ∈ db, resp = SosPacketResponse.ofDB p ∧
         p.status ≠ .RESPONDED ∧ now - hours * 3600 ≤ p.received_at ∧
         ∀ t, et = some t → p.emergency_type = t) ∧
    (get_active_sos db now et hours limit).length ≤ limit ∧
    (get_active_sos db now et hours limit).Pairwise
      (fun a b => b.timestamp ≤ a.timestamp) ∧
    ((∀ p ∈ db, ¬(p.status ≠ .RESPONDED ∧ now - hours * 3600 ≤ p.received_at ∧
         ∀ t, et = some t → p.emergency_type = t)) →
       get_active_sos db now et hours limit = []) ∧
    (db.countP (activeMatch now et hours) ≤ limit →
       ∀ p ∈ db, p.status ≠ .RESPONDED → now - hours * 3600 ≤ p.received_at →
         (∀ t, et = some t → p.emergency_type = t) →
         SosPacketResponse.ofDB p ∈ get_active_sos db now et hours limit) := by
  have hperm : List.Perm
      (sortByTimestampDesc (db.filter (activeMatch now et hours)))
      (db.filter (activeMatch now et hours)) :=
    List.perm_insertionSort tsGE _
  have hsorted : List.Pairwise tsGE
      (sortByTimestampDesc (db.filter (activeMatch now et hours))) :=
    List.sorted_insertionSort tsGE _
  refine ⟨?_, ?_, ?_, ?_, ?_⟩
  · intro resp hresp
    rw [get_active_sos, List.mem_map] at hresp
    obtain ⟨x, hx, hxr⟩ := hresp
    have hxS : x ∈ sortByTimestampDesc (db.filter (activeMatch now et hours)) :=
      (List.take_sublist _ _).subset hx
    have hxf : x ∈ db.filter (activeMatch now et hours) := hperm.mem_iff.mp hxS
    rw [List.mem_filter] at hxf
    have hmatch := (activeMatch_iff now et hours x).mp hxf.2
    exact ⟨x, hxf.1, hxr.symm, hmatch⟩
  · rw [get_active_sos]
    simp only [List.length_map, List.length_take]
    exact inf_le_left
  · rw [get_active_sos]
    rw [List.pairwise_map]
    exact (List.Pairwise.sublist (List.take_sublist _ _) hsorted).imp (fun h => h)
  · intro hnone
    have hf : db.filter (activeMatch now et hours) = [] := by
      rw [List.filter_eq_nil_iff]
      intro p hp hmp
      exact hnone p hp ((activeMatch_iff now et hours p).mp hmp)
    rw [get_active_sos, hf]
    simp [sortByTimestampDesc]
  · intro hcount p hp h1 h2 h3
    have hmp : activeMatch now et hours p = true :=
      (activeMatch_iff now et hours p).mpr ⟨h1, h2, h3⟩
    have hlen : (sortByTimestampDesc
        (db.filter (activeMatch now et hours))).length ≤ limit := by
      rw [hperm.length_eq, ← List.countP_eq_length_filter]
      exact hcount
    rw [get_active_sos, List.take_of_length_le hlen, List.mem_map]
    exact ⟨p, hperm.mem_iff.mpr (List.mem_filter.mpr ⟨hp, hmp⟩), rfl⟩

/-- C2 witness: a one-row store queried with the default parameters. -/
theorem active_sos_spec_witness :
    (get_active_sos [createdRow samplePacket 5] 5 none 24 100).length ≤ 100 :=
  (active_sos_spec [createdRow samplePacket 5] 5 none 24 100
    (by decide) (by decide) (by decide) (by decide)).2.1

/-- Inversion of a successful pydantic validation: the validated packet
carries the raw fields unchanged, and the emergency type is the parse
(i.e. uppercase normalization) of the raw string. -/
lemma validatePacket_ok_inv {raw : SosPacketRaw} {packet : SosPacketCreate}
    (h : validatePacket raw = .ok packet) :
    packet.sos_id = raw.sos_id ∧ packet.device_id = raw.device_id ∧
    packet.timestamp = raw.timestamp ∧ packet.latitude = raw.latitude ∧
    packet.longitude = raw.longitude ∧ packet.accuracy = raw.accuracy ∧
    packet.optional_message = raw.optional_message ∧
    packet.battery_percentage = raw.battery_percentage ∧
    packet.hop_count = raw.hop_count ∧ packet.ttl = raw.ttl ∧
    packet.signature = raw.signature ∧
    parseEmergencyType raw.emergency_type = some packet.emergency_type := by
  unfold validatePacket at h
  split at h
  · next heq =>
    cases h
    refine ⟨rfl, rfl, rfl, rfl, rfl, rfl, rfl, rfl, rfl, rfl, rfl, heq⟩
  · exact absurd h (by simp)

/-- A nonempty offending-field list makes validation fail with exactly
that list. -/
lemma validatePacket_error (raw : SosPacketRaw)
    (h : validationErrs raw ≠ []) :
    validatePacket raw = .error (validationErrs raw) := by
  unfold validatePacket
  cases herrs : validationErrs raw with
  | nil => exact absurd herrs h
  | cons a l => rfl

/-- A failed validation short-circuits the upload route with a 422 and no
store write. -/
lemma upload_endpoint_error_of_mem {raw : SosPacketRaw} {f : String}
    (now : Int) (db : Store) (h : f ∈ validationErrs raw) :
    upload_endpoint raw now db =
      (.error (.validation (validationErrs raw)), db) := by
  rw [upload_endpoint, validatePacket_error raw (List.ne_nil_of_mem h)]

/-- C5: a fresh, previously unseen, valid packet is stored as a single
appended row with `status = DELIVERED`, `received_at` = the server time at
ingestion, `emergency_type` = the input string normalized to uppercase,
and every other column equal to the input field. -/
theorem first_ingestion_row (raw : SosPacketRaw) (packet : SosPacketCreate)
    (now : Int) (db : Store)
    (hval : validatePacket raw = .ok packet)
    (habsent : findPacket db packet.sos_id = none)
    (hfresh : now - packet.timestamp ≤ maxAge) :
    upload_endpoint raw now db =
      (.ok { success := true, sos_id := packet.sos_id,
             message := "SOS packet uploaded successfully" },
       db ++ [createdRow packet now]) ∧
    (createdRow packet now).status = .DELIVERED ∧
    (createdRow packet now).received_at = now ∧
    parseEmergencyType raw.emergency_type =
      some (createdRow packet now).emergency_type ∧
    (createdRow packet now).sos_id = raw.sos_id ∧
    (createdRow packet now).device_id = raw.device_id ∧
    (createdRow packet now).timestamp = raw.timestamp ∧
    (createdRow packet now).latitude = raw.latitude ∧
    (createdRow packet now).longitude = raw.longitude ∧
    (createdRow packet now).accuracy = raw.accuracy ∧
    (createdRow packet now).optional_message = raw.optional_message ∧
    (createdRow packet now).battery_percentage = raw.battery_percentage ∧
    (createdRow packet now).hop_count = raw.hop_count ∧
    (createdRow packet now).ttl = raw.ttl ∧
    (createdRow packet now).signature = raw.signature ∧
    parseEmergencyType "medical" = some .MEDICAL := by
  obtain ⟨h1, h2, h3, h4, h5, h6, h7, h8, h9, h10, h11, h12⟩ :=
    validatePacket_ok_inv hval
  refine ⟨?_, rfl, rfl, h12, ?_⟩
  · rw [upload_endpoint, hval]
    dsimp only
    rw [upload_sos, habsent]
    simp [not_lt.mpr hfresh]
  · simp [createdRow, h1, h2, h3, h4, h5, h6, h7, h8, h9, h10, h11]
    rfl

/-- Fixture: a raw payload using the lowercase emergency type "medical". -/
def sampleRaw : SosPacketRaw :=
  { sos_id := 3
    device_id := "dev"
    timestamp := 0
    latitude := 1
    longitude := 2
    accuracy := none
    emergency_type := "medical"
    optional_message := none
    battery_percentage := some 50
    hop_count := 0
    ttl := 10
    signature := none }

/-- The packet `sampleRaw` validates to. -/
def sampleRawPacket : SosPacketCreate :=
  { sos_id := 3
    device_id := "dev"
    timestamp := 0
    latitude := 1
    longitude := 2
    accuracy := none
    emergency_type := .MEDICAL
    optional_message := none
    battery_percentage := some 50
    hop_count := 0
    ttl := 10
    signature := none }

/-- C5 witness: ingesting `sampleRaw` at time 9 into the empty store. -/
theorem first_ingestion_row_witness :
    upload_endpoint sampleRaw 9 [] =
      (.ok { success := true, sos_id := sampleRawPacket.sos_id,
             message := "SOS packet uploaded successfully" },
       [] ++ [createdRow sampleRawPacket 9]) ∧
    (createdRow sampleRawPacket 9).status = .DELIVERED ∧
    (createdRow sampleRawPacket 9).received_at = 9 ∧
    parseEmergencyType sampleRaw.emergency_type =
      some (createdRow sampleRawPacket 9).emergency_type ∧
    (createdRow sampleRawPacket 9).sos_id = sampleRaw.sos_id ∧
    (createdRow sampleRawPacket 9).device_id = sampleRaw.device_id ∧
    (createdRow sampleRawPacket 9).timestamp = sampleRaw.timestamp ∧
    (createdRow sampleRawPacket 9).latitude = sampleRaw.latitude ∧
    (createdRow sampleRawPacket 9).longitude = sampleRaw.longitude ∧
    (createdRow sampleRawPacket 9).accuracy = sampleRaw.accuracy ∧
    (createdRow sampleRawPacket 9).optional_message =
      sampleRaw.optional_message ∧
    (createdRow sampleRawPacket 9).battery_percentage =
      sampleRaw.battery_percentage ∧
    (createdRow sampleRawPacket 9).hop_count = sampleRaw.hop_count ∧
    (createdRow sampleRawPacket 9).ttl = sampleRaw.ttl ∧
    (createdRow sampleRawPacket 9).signature = sampleRaw.signature ∧
    parseEmergencyType "medical" = some .MEDICAL :=
  first_ingestion_row sampleRaw sampleRawPacket 9 [] rfl rfl (by decide)

/-- C8: out-of-range inputs are rejected by validation with the offending
field named, and nothing is persisted: the upload route returns the 422
validation error and leaves the store unchanged. -/
theorem upload_validation (raw : SosPacketRaw) (now : Int) (db : Store) :
    ((raw.latitude < -90 ∨ raw.latitude > 90) →
       "latitude" ∈ validationErrs raw ∧
       upload_endpoint raw now db =
         (.error (.validation (validationErrs raw)), db)) ∧
    ((raw.longitude < -180 ∨ raw.longitude > 180) →
       "longitude" ∈ validationErrs raw ∧
       upload_endpoint raw now db =
         (.error (.validation (validationErrs raw)), db)) ∧
    (∀ b, raw.battery_percentage = some b → (b < 0 ∨ b > 100) →
       "battery_percentage" ∈ validationErrs raw ∧
       upload_endpoint raw now db =
         (.error (.validation (validationErrs raw)), db)) ∧
    ((raw.hop_count < 0 ∨ raw.hop_count > 100) →
       "hop_count" ∈ validationErrs raw ∧
       upload_endpoint raw now db =
         (.error (.validation (validationErrs raw)), db)) ∧
    ((raw.ttl < 0 ∨ raw.ttl > 100) →
       "ttl" ∈ validationErrs raw ∧
       upload_endpoint raw now db =
         (.error (.validation (validationErrs raw)), db)) ∧
    (∀ m, raw.optional_message = some m → m.length > 500 →
       "optional_message" ∈ validationErrs raw ∧
       upload_endpoint raw now db =
         (.error (.validation (validationErrs raw)), db)) ∧
    (parseEmergencyType raw.emergency_type = none →
       "emergency_type" ∈ validationErrs raw ∧
       upload_endpoint raw now db =
         (.error (.validation (validationErrs raw)), db)) := by
  refine ⟨?_, ?_, ?_, ?_, ?_, ?_, ?_⟩
  · intro h
    have hm : "latitude" ∈ validationErrs raw := by simp [validationErrs, h]
    exact ⟨hm, upload_endpoint_error_of_mem now db hm⟩
  · intro h
    have hm : "longitude" ∈ validationErrs raw := by simp [validationErrs, h]
    exact ⟨hm, upload_endpoint_error_of_mem now db hm⟩
  · intro b hb h
    have hm : "battery_percentage" ∈ validationErrs raw := by
      simp [validationErrs, hb, h]
    exact ⟨hm, upload_endpoint_error_of_mem now db hm⟩
  · intro h
    have hm : "hop_count" ∈ validationErrs raw := by simp [validationErrs, h]
    exact ⟨hm, upload_endpoint_error_of_mem now db hm⟩
  · intro h
    have hm : "ttl" ∈ validationErrs raw := by simp [validationErrs, h]
    exact ⟨hm, upload_endpoint_error_of_mem now db hm⟩
  · intro m hmm h
    have hm : "optional_message" ∈ validationErrs raw := by
      simp [validationErrs, hmm, h]
    exact ⟨hm, upload_endpoint_error_of_mem now db hm⟩
  · intro h
    have hm : "emergency_type" ∈ validationErrs raw := by
      simp [validationErrs, h]
    exact ⟨hm, upload_endpoint_error_of_mem now db hm⟩

/-- Fixture: a payload with `latitude = 200`. -/
def badLatRaw : SosPacketRaw :=
  { sampleRaw with latitude := 200 }

/-- C8 witness: `latitude = 200` is rejected and nothing is stored. -/
theorem upload_validation_witness :
    "latitude" ∈ validationErrs badLatRaw ∧
    upload_endpoint badLatRaw 0 [] =
      (.error (.validation (validationErrs badLatRaw)), []) :=
  (upload_validation badLatRaw 0 []).1 (by decide)

/-- The primary-key invariant of the `sos_packets` table: all stored
`sos_id`s are distinct. -/
def KeysNodup (db : Store) : Prop :=
  (db.map (fun p => p.sos_id)).Nodup

/-- The upload route only ever appends to the store. -/
lemma upload_endpoint_append (raw : SosPacketRaw) (now : Int) (db : Store) :
    ∃ tail, (upload_endpoint raw now db).2 = db ++ tail := by
  rw [upload_endpoint]
  cases hval : validatePacket raw with
  | error e => exact ⟨[], (List.append_nil db).symm⟩
  | ok packet =>
    dsimp only
    rw [upload_sos]
    cases hfind : findPacket db packet.sos_id with
    | some q => exact ⟨[], (List.append_nil db).symm⟩
    | none =>
      dsimp only
      by_cases hs : now - packet.timestamp > maxAge
      · rw [if_pos hs]
        exact ⟨[], (List.append_nil db).symm⟩
      · rw [if_neg hs]
        exact ⟨[createdRow packet now], rfl⟩

/-- Uploads preserve distinctness of stored ids: a row is only appended
after the deduplication lookup misses. -/
lemma keysNodup_upload (raw : SosPacketRaw) (now : Int) {db : Store}
    (h : KeysNodup db) : KeysNodup (upload_endpoint raw now db).2 := by
  rw [upload_endpoint]
  cases hval : validatePacket raw with
  | error e => exact h
  | ok packet =>
    dsimp only
    rw [upload_sos]
    cases hfind : findPacket db packet.sos_id with
    | some q => exact h
    | none =>
      dsimp only
      by_cases hs : now - packet.timestamp > maxAge
      · rw [if_pos hs]
        exact h
      · rw [if_neg hs]
        have hfind' : List.find? (fun p => p.sos_id == packet.sos_id) db = none :=
          hfind
        have hnotin : packet.sos_id ∉ db.map (fun p => p.sos_id) := by
          intro hmem
          rw [List.mem_map] at hmem
          obtain ⟨p, hpmem, hpe⟩ := hmem
          have hne := List.find?_eq_none.mp hfind' p hpmem
          simp [hpe] at hne
        unfold KeysNodup at h ⊢
        rw [List.map_append, List.nodup_append]
        refine ⟨h, by simp, ?_⟩
        intro a ha hb
        simp [createdRow] at hb
        subst hb
        exact hnotin ha

/-- `mark_responded` preserves the stored ids verbatim (it only touches
status fields). -/
lemma keysNodup_mark (i : Nat) (r : String) (now : Int) {db : Store}
    (h : KeysNodup db) : KeysNodup (mark_responded i r now db).2 := by
  rw [mark_responded]
  cases hfind : findPacket db i with
  | none => exact h
  | some q =>
    dsimp only
    by_cases hs : q.status = DeliveryStatus.RESPONDED
    · rw [if_pos hs]
      exact h
    · rw [if_neg hs]
      unfold KeysNodup at h ⊢
      rw [List.map_map]
      have hk : ∀ p ∈ db,
          ((fun p : SosPacketDB => p.sos_id) ∘ fun q =>
            if q.sos_id == i then
              { q with status := DeliveryStatus.RESPONDED
                       responded_at := some now
                       responder_id := some r }
            else q) p = p.sos_id := by
        intro p _
        by_cases hp : (p.sos_id == i) = true <;>
          simp [Function.comp, hp]
      rw [List.map_congr_left hk]
      exact h

/-- Every API call preserves the primary-key invariant. -/
lemma keysNodup_applyOp (op : Op) {db : Store} (h : KeysNodup db) :
    KeysNodup (applyOp db op) := by
  cases op with
  | upload raw now => exact keysNodup_upload raw now h
  | markResponded i r now => exact keysNodup_mark i r now h
  | listActive _ _ _ _ => exact h
  | getById _ => exact h

/-- Every store reachable from the empty store has distinct ids. -/
lemma keysNodup_runOps (ops : List Op) : KeysNodup (runOps ops) := by
  suffices h : ∀ db, KeysNodup db → KeysNodup (ops.foldl applyOp db) from
    h [] (by simp [KeysNodup])
  induction ops with
  | nil => exact fun db h => h
  | cons op ops ih =>
    intro db h
    exact ih _ (keysNodup_applyOp op h)

/-- One-step preservation: in a store with distinct ids, every stored packet
survives any API call with the same `sos_id` and `received_at`, its status
either unchanged or stepped from non-RESPONDED to RESPONDED, and a packet
already RESPONDED is left completely untouched. -/
lemma applyOp_preserves {db : Store} (hnd : KeysNodup db) (op : Op)
    {p : SosPacketDB} (hp : p ∈ db) :
    ∃ p' ∈ applyOp db op,
      p'.sos_id = p.sos_id ∧ p'.received_at = p.received_at ∧
      (p'.status = p.status ∨
        (p.status ≠ .RESPONDED ∧ p'.status = .RESPONDED)) ∧
      (p.status = .RESPONDED → p' = p) := by
  cases op with
  | upload raw now =>
    obtain ⟨tail, htail⟩ := upload_endpoint_append raw now db
    refine ⟨p, ?_, rfl, rfl, Or.inl rfl, fun _ => rfl⟩
    show p ∈ (upload_endpoint raw now db).2
    rw [htail]
    exact List.mem_append_left tail hp
  | listActive now et hours limit =>
    exact ⟨p, hp, rfl, rfl, Or.inl rfl, fun _ => rfl⟩
  | getById i =>
    exact ⟨p, hp, rfl, rfl, Or.inl rfl, fun _ => rfl⟩
  | markResponded i r now =>
    show ∃ p' ∈ (mark_responded i r now db).2, _
    rw [mark_responded]
    cases hfind : findPacket db i with
    | none => exact ⟨p, hp, rfl, rfl, Or.inl rfl, fun _ => rfl⟩
    | some q =>
      dsimp only
      by_cases hs : q.status = DeliveryStatus.RESPONDED
      · rw [if_pos hs]
        exact ⟨p, hp, rfl, rfl, Or.inl rfl, fun _ => rfl⟩
      · rw [if_neg hs]
        dsimp only
        by_cases hpi : (p.sos_id == i) = true
        · have hfind' : List.find? (fun p => p.sos_id == i) db = some q := hfind
          have hq_mem : q ∈ db := List.mem_of_find?_eq_some hfind'
          have hqid : (q.sos_id == i) = true := by
            have h := List.find?_some hfind'
            simpa using h
          have hpq : p = q := by
            apply List.inj_on_of_nodup_map hnd hp hq_mem
            rw [beq_iff_eq] at hpi hqid
            rw [hpi, hqid]
          refine ⟨{ p with status := DeliveryStatus.RESPONDED
                           responded_at := some now
                           responder_id := some r }, ?_, rfl, rfl, ?_, ?_⟩
          · have h := List.mem_map_of_mem
              (f := fun q : SosPacketDB =>
                if q.sos_id == i then
                  { q with status := DeliveryStatus.RESPONDED
                           responded_at := some now
                           responder_id := some r }
                else q) hp
            simpa [hpi] using h
          · exact Or.inr ⟨hpq ▸ hs, rfl⟩
          · intro habs
            exact absurd (hpq ▸ habs) hs
        · refine ⟨p, ?_, rfl, rfl, Or.inl rfl, fun _ => rfl⟩
          have h := List.mem_map_of_mem
            (f := fun q : SosPacketDB =>
              if q.sos_id == i then
                { q with status := DeliveryStatus.RESPONDED
                         responded_at := some now
                         responder_id := some r }
              else q) hp
          simpa [hpi] using h

/-- C6: over any sequence of API calls from the empty store, a stored
packet's `sos_id` and `received_at` never change, its status only ever
moves from a non-RESPONDED value to RESPONDED, and nothing ever moves a
packet out of RESPONDED (a RESPONDED packet is left untouched). -/
theorem store_invariants (ops : List Op) (op : Op) (p : SosPacketDB)
    (hp : p ∈ runOps ops) :
    ∃ p' ∈ applyOp (runOps ops) op,
      p'.sos_id = p.sos_id ∧ p'.received_at = p.received_at ∧
      (p'.status = p.status ∨
        (p.status ≠ .RESPONDED ∧ p'.status = .RESPONDED)) ∧
      (p.status = .RESPONDED → p' = p) :=
  applyOp_preserves (keysNodup_runOps ops) op hp

/-- C6 witness: the store reached by one upload, stepped by a
`mark-responded` call. -/
theorem store_invariants_witness :
    ∃ p' ∈ applyOp (runOps [.upload sampleRaw 0]) (.markResponded 3 "r" 1),
      p'.sos_id = (createdRow sampleRawPacket 0).sos_id ∧
      p'.received_at = (createdRow sampleRawPacket 0).received_at ∧
      (p'.status = (createdRow sampleRawPacket 0).status ∨
        ((createdRow sampleRawPacket 0).status ≠ .RESPONDED ∧
         p'.status = .RESPONDED)) ∧
      ((createdRow sampleRawPacket 0).status = .RESPONDED →
        p' = createdRow sampleRawPacket 0) :=
  store_invariants [.upload sampleRaw 0] (.markResponded 3 "r" 1)
    (createdRow sampleRawPacket 0) (by decide)

end RescueMesh
